import Mathlib

/- Shallow embedding of the Bus-Buddy front end (a React client).
   Sources:
   - src/unnamed/part_000 : DriverDashboard (handleUpdateLocation lines 83-123,
     handleEmergency lines 125-152) and Landing (registration role options,
     lines 425-434).
   - src/frontend/src/App.js : App routing (lines 62-75) and TransportDashboard
     (subscribe effect lines 120-125, mount fetch effect lines 127-139,
     location_update handler lines 141-171).
   - src/frontend/src/pages/StudentDashboard.js : StudentDashboard (subscribe
     effect lines 90-95, mount fetch effect lines 97-107, location_update
     handler lines 109-139).
   Coordinates are rationals; the JS NaN produced by parseFloat on a
   non-numeric string is modelled as Option.none where a parsed value is
   carried, and as a dedicated constructor where the raw input field is
   carried. -/

/-- Last known location of a bus, as built by the dashboards from the data of a
location_update event (App.js lines 152-157, StudentDashboard.js lines
119-124). -/
structure LastLocation where
  latitude : ℚ
  longitude : ℚ
  speed : ℚ
  timestamp : String
deriving DecidableEq

/-- A bus record as held in the client bus list. Fields absent on a JS object
are Option.none. -/
structure BusRec where
  id : String
  bus_number : String
  capacity : Option ℕ
  route_name : Option String
  status : String
  driver_id : Option String
  last_location : Option LastLocation
deriving DecidableEq

/-- The data payload of a location_update stream event. -/
structure LocationUpdateData where
  bus_id : String
  bus_number : String
  latitude : ℚ
  longitude : ℚ
  speed : ℚ
  timestamp : String
deriving DecidableEq

/-- The LastLocation value both dashboards build from an event payload. -/
def newLocOf (d : LocationUpdateData) : LastLocation :=
  { latitude := d.latitude
    longitude := d.longitude
    speed := d.speed
    timestamp := d.timestamp }

/-- TransportDashboard location_update handler (App.js lines 145-162): find the
first bus whose id equals the event bus_id; if found, merge into it status
active and the new last_location, leaving every other entry untouched; if no
bus matches, return the list unchanged. -/
def transportApply (d : LocationUpdateData) : List BusRec → List BusRec
  | [] => []
  | b :: rest =>
    if b.id = d.bus_id then
      { b with status := "active", last_location := some (newLocOf d) } :: rest
    else
      b :: transportApply d rest

/-- The replacement bus object the StudentDashboard handler builds (lines
115-125): only id, bus_number, status and last_location are populated. -/
def studentNewBus (d : LocationUpdateData) : BusRec :=
  { id := d.bus_id
    bus_number := d.bus_number
    capacity := none
    route_name := none
    status := "active"
    driver_id := none
    last_location := some (newLocOf d) }

/-- StudentDashboard location_update handler (StudentDashboard.js lines
113-132): replace the first bus whose id equals the event bus_id by the fresh
object; if no bus matches, append the fresh object at the end. -/
def studentApply (d : LocationUpdateData) : List BusRec → List BusRec
  | [] => [studentNewBus d]
  | b :: rest =>
    if b.id = d.bus_id then
      studentNewBus d :: rest
    else
      b :: studentApply d rest

/-- A coordinate input field of the driver dashboard. empty models the empty
string (falsy in JS), nan models a non-empty string on which parseFloat yields
NaN, and val models a numeric input. -/
inductive FieldVal where
  | empty : FieldVal
  | nan : FieldVal
  | val : ℚ → FieldVal
deriving DecidableEq

/-- The result of parseFloat on a field: none models NaN. -/
def FieldVal.parse : FieldVal → Option ℚ
  | FieldVal.val q => some q
  | _ => none

/-- The body posted to the locations endpoint (part_000 lines 109-115). -/
structure LocationRequest where
  bus_id : String
  latitude : ℚ
  longitude : ℚ
  speed : ℚ
  heading : ℚ
deriving DecidableEq

/-- Outcome of the handleUpdateLocation click handler: each err constructor is
one early-return toast branch; sent carries the request body that is posted. -/
inductive LocOutcome where
  | errMissing : LocOutcome
  | errNotNumeric : LocOutcome
  | errLatitudeRange : LocOutcome
  | errLongitudeRange : LocOutcome
  | sent : LocationRequest → LocOutcome
deriving DecidableEq

/-- handleUpdateLocation (part_000 lines 83-123): require a selected bus and
non-empty coordinate fields, require numeric parses, require latitude in
[-90, 90] and longitude in [-180, 180], then post the request with speed 0 and
heading 0. -/
def handleUpdateLocation (selectedBus : String) (latField lngField : FieldVal) :
    LocOutcome :=
  if selectedBus = "" ∨ latField = FieldVal.empty ∨ lngField = FieldVal.empty then
    LocOutcome.errMissing
  else
    match latField.parse, lngField.parse with
    | some lat, some lng =>
      if lat < -90 ∨ 90 < lat then LocOutcome.errLatitudeRange
      else if lng < -180 ∨ 180 < lng then LocOutcome.errLongitudeRange
      else LocOutcome.sent
        { bus_id := selectedBus
          latitude := lat
          longitude := lng
          speed := 0
          heading := 0 }
    | _, _ => LocOutcome.errNotNumeric

/-- Modelled from the spec: the State Store keeps only the latest location per
bus; an applied report replaces any prior entry for that bus id. The store
itself is server code absent from src. -/
def upsertLocation : List (String × ℚ × ℚ) → String → ℚ → ℚ →
    List (String × ℚ × ℚ)
  | [], busId, lat, lng => [(busId, lat, lng)]
  | e :: rest, busId, lat, lng =>
    if e.1 = busId then (busId, lat, lng) :: rest
    else e :: upsertLocation rest busId lat lng

/-- Effect of a handleUpdateLocation outcome on the stored per-bus state: only
a sent request reaches the store; every error branch returns before the post,
so the store is untouched. -/
def applyLocOutcome (store : List (String × ℚ × ℚ)) : LocOutcome →
    List (String × ℚ × ℚ)
  | LocOutcome.sent r => upsertLocation store r.bus_id r.latitude r.longitude
  | _ => store

/-- The body posted to the emergency endpoint (part_000 lines 133-139). The
latitude and longitude are parseFloat results, none modelling NaN. -/
structure EmergencyRequest where
  bus_id : String
  driver_id : String
  latitude : Option ℚ
  longitude : Option ℚ
  description : String
deriving DecidableEq

/-- The fallback description used when the driver entered none (part_000
line 138). -/
def defaultEmergencyDesc : String := "Emergency situation reported by driver"

/-- handleEmergency (part_000 lines 125-152): require only that a bus is
selected and both coordinate fields are non-empty, then post the request; the
description is the entered text when non-empty (truthy), else the default.
No coordinate-bounds or NaN check is performed on this path. -/
def handleEmergency (userId selectedBus : String) (latField lngField : FieldVal)
    (emergencyDesc : String) : Option EmergencyRequest :=
  if selectedBus = "" ∨ latField = FieldVal.empty ∨ lngField = FieldVal.empty then
    none
  else
    some
      { bus_id := selectedBus
        driver_id := userId
        latitude := latField.parse
        longitude := lngField.parse
        description :=
          if emergencyDesc = "" then defaultEmergencyDesc else emergencyDesc }

/-- handleEmergency together with the state of the description input after the
handler finishes: on a successful post (sendOk) the input is reset to the
empty string (part_000 line 141); on a blocked request or a failed post it is
left as it was. -/
def handleEmergencyStep (userId selectedBus : String)
    (latField lngField : FieldVal) (emergencyDesc : String) (sendOk : Bool) :
    Option EmergencyRequest × String :=
  match handleEmergency userId selectedBus latField lngField emergencyDesc with
  | none => (none, emergencyDesc)
  | some r => (some r, if sendOk then "" else emergencyDesc)

/-- An emergency alert record. -/
structure EmergencyAlert where
  bus_id : String
  driver_id : String
  description : String
  status : String
deriving DecidableEq

/-- Modelled from the spec: the Ingest Handler, absent from src, always
succeeds in creating an alert with status active from an authorized emergency
request. -/
def alertOf (r : EmergencyRequest) : EmergencyAlert :=
  { bus_id := r.bus_id
    driver_id := r.driver_id
    description := r.description
    status := "active" }

/-- A message sent on the streaming connection; subscribe messages carry
exactly an event name and a channel name (App.js lines 122-123,
StudentDashboard.js lines 92-93). -/
structure WireMsg where
  event : String
  channel : String
deriving DecidableEq

/-- An outward action a dashboard performs: an HTTP GET of a snapshot
endpoint, or a websocket send. -/
inductive DashAction where
  | httpGet : String → DashAction
  | wsSend : WireMsg → DashAction
deriving DecidableEq

/-- A lifecycle event of a dashboard component: the initial mount, the
websocket readyState becoming open (1), including every reconnect, and the
connection closing. -/
inductive DashEvent where
  | mount : DashEvent
  | wsOpen : DashEvent
  | wsClosed : DashEvent
deriving DecidableEq

/-- Actions the TransportDashboard performs on each lifecycle event: the
mount-only effect (App.js lines 127-139) fetches the buses and emergency
snapshots; the readyState effect (lines 120-125) sends the two subscribe
messages whenever the connection becomes open; nothing runs on close. -/
def transportEffects : DashEvent → List DashAction
  | DashEvent.mount =>
      [DashAction.httpGet "/buses", DashAction.httpGet "/emergency"]
  | DashEvent.wsOpen =>
      [DashAction.wsSend { event := "subscribe", channel := "bus_locations" },
       DashAction.wsSend { event := "subscribe", channel := "emergency_alerts" }]
  | DashEvent.wsClosed => []

/-- Actions the StudentDashboard performs on each lifecycle event: the
mount-only effect (StudentDashboard.js lines 97-107) fetches the latest
locations snapshot; the readyState effect (lines 90-95) sends the two
subscribe messages whenever the connection becomes open. -/
def studentEffects : DashEvent → List DashAction
  | DashEvent.mount => [DashAction.httpGet "/locations/latest"]
  | DashEvent.wsOpen =>
      [DashAction.wsSend { event := "subscribe", channel := "bus_locations" },
       DashAction.wsSend { event := "subscribe", channel := "emergency_alerts" }]
  | DashEvent.wsClosed => []

/-- All actions emitted over a sequence of lifecycle events. -/
def traceActions (eff : DashEvent → List DashAction) (evs : List DashEvent) :
    List DashAction :=
  (evs.map eff).flatten

/-- The websocket messages among a list of actions. -/
def sendsOf (acts : List DashAction) : List WireMsg :=
  acts.filterMap (fun a =>
    match a with
    | DashAction.wsSend m => some m
    | _ => none)

/-- Whether an action is a snapshot fetch. -/
def isFetch (a : DashAction) : Bool :=
  match a with
  | DashAction.httpGet _ => true
  | _ => false

/-- Whether a wire message is a well-shaped subscribe message on one of the
two fixed channels. -/
def subscribeShapeOk (m : WireMsg) : Bool :=
  m.event == "subscribe" &&
    (m.channel == "bus_locations" || m.channel == "emergency_alerts")

/-- A logged-in user as routing sees it. -/
structure UserRec where
  role : String
deriving DecidableEq

/-- What a route renders. -/
inductive RouteResult where
  | landingPage : RouteResult
  | dashboard : String → RouteResult
  | redirect : String → RouteResult
  | noMatch : RouteResult
deriving DecidableEq

/-- App routing (App.js lines 62-75): the root path shows the landing page
when logged out and redirects to the role path when logged in; each dashboard
path renders its dashboard exactly when the user role equals the path role and
redirects to the root path otherwise; any other path matches no route. -/
def route (user : Option UserRec) (path : String) : RouteResult :=
  if path = "/" then
    match user with
    | none => RouteResult.landingPage
    | some u => RouteResult.redirect ("/" ++ u.role)
  else if path = "/student" then
    match user with
    | some u =>
      if u.role = "student" then RouteResult.dashboard "student"
      else RouteResult.redirect "/"
    | none => RouteResult.redirect "/"
  else if path = "/driver" then
    match user with
    | some u =>
      if u.role = "driver" then RouteResult.dashboard "driver"
      else RouteResult.redirect "/"
    | none => RouteResult.redirect "/"
  else if path = "/transport_dept" then
    match user with
    | some u =>
      if u.role = "transport_dept" then RouteResult.dashboard "transport_dept"
      else RouteResult.redirect "/"
    | none => RouteResult.redirect "/"
  else RouteResult.noMatch

/-- The role options offered by the registration form (part_000 lines
425-434). -/
def registrationRoleOptions : List String :=
  ["student", "driver", "transport_dept"]

/-- Modelled from the spec: the Subscription Registry, server code absent from
src, holding connection id times channel pairs. -/
structure Registry where
  subs : List (ℕ × String)
deriving DecidableEq

/-- Modelled from the spec: the connections subscribed to a channel. -/
def subscribersOf (r : Registry) (ch : String) : List ℕ :=
  (r.subs.filter (fun s => s.2 == ch)).map (fun s => s.1)

/-- Modelled from the spec: the Fanout Broadcaster delivers an event on a
channel to every subscribed connection, best effort per connection: each
delivery depends only on that connection, a failing connection receives
nothing and is dropped from the registry entirely, and the broadcast itself
always completes without raising an error. Returns the connections actually
delivered to and the registry after dropping the failed connections. -/
def broadcast (r : Registry) (ch : String) (failing : ℕ → Bool) :
    List ℕ × Registry :=
  let targets := subscribersOf r ch
  (targets.filter (fun c => !(failing c)),
   { subs := r.subs.filter (fun s => !(failing s.1 && targets.contains s.1)) })

/-- Among buses whose id never matches the event, the id filter is empty. -/
theorem filter_id_nil (d : LocationUpdateData) :
    ∀ (l : List BusRec), (∀ x ∈ l, x.id ≠ d.bus_id) →
      l.filter (fun b => b.id == d.bus_id) = [] := by
  intro l
  induction l with
  | nil => intro _; rfl
  | cons a t ih =>
    intro h
    have ha : (a.id == d.bus_id) = false :=
      beq_eq_false_iff_ne.mpr (h a (List.mem_cons_self a t))
    rw [List.filter_cons]
    simp only [ha, Bool.false_eq_true, if_false]
    exact ih (fun x hx => h x (List.mem_cons_of_mem a hx))

/-- Every bus produced by the transport handler is either an untouched input
bus or carries the event id with status active. -/
theorem transportApply_mem (d : LocationUpdateData) :
    ∀ (l : List BusRec), ∀ b ∈ transportApply d l,
      b ∈ l ∨ (b.id = d.bus_id ∧ b.status = "active") := by
  intro l
  induction l with
  | nil => intro b hb; simp [transportApply] at hb
  | cons a rest ih =>
    intro b hb
    by_cases ha : a.id = d.bus_id
    · simp only [transportApply, if_pos ha] at hb
      rcases List.mem_cons.mp hb with h | h
      · subst h; exact Or.inr ⟨ha, rfl⟩
      · exact Or.inl (List.mem_cons_of_mem a h)
    · simp only [transportApply, if_neg ha] at hb
      rcases List.mem_cons.mp hb with h | h
      · subst h; exact Or.inl (List.mem_cons_self _ _)
      · rcases ih b h with h2 | h2
        · exact Or.inl (List.mem_cons_of_mem a h2)
        · exact Or.inr h2

/-- Every bus produced by the student handler is either an untouched input bus
or carries the event id with status active. -/
theorem studentApply_mem (d : LocationUpdateData) :
    ∀ (l : List BusRec), ∀ b ∈ studentApply d l,
      b ∈ l ∨ (b.id = d.bus_id ∧ b.status = "active") := by
  intro l
  induction l with
  | nil =>
    intro b hb
    simp only [studentApply, List.mem_singleton] at hb
    subst hb; exact Or.inr ⟨rfl, rfl⟩
  | cons a rest ih =>
    intro b hb
    by_cases ha : a.id = d.bus_id
    · simp only [studentApply, if_pos ha] at hb
      rcases List.mem_cons.mp hb with h | h
      · subst h; exact Or.inr ⟨rfl, rfl⟩
      · exact Or.inl (List.mem_cons_of_mem a h)
    · simp only [studentApply, if_neg ha] at hb
      rcases List.mem_cons.mp hb with h | h
      · subst h; exact Or.inl (List.mem_cons_self _ _)
      · rcases ih b h with h2 | h2
        · exact Or.inl (List.mem_cons_of_mem a h2)
        · exact Or.inr h2

/-- The transport handler never changes the length of the bus list. -/
theorem transportApply_length (d : LocationUpdateData) :
    ∀ (l : List BusRec), (transportApply d l).length = l.length := by
  intro l
  induction l with
  | nil => rfl
  | cons a rest ih =>
    by_cases ha : a.id = d.bus_id
    · simp [transportApply, if_pos ha]
    · simp [transportApply, if_neg ha, ih]

/-- When some bus matches the event id, the student handler keeps the length
of the bus list. -/
theorem studentApply_length (d : LocationUpdateData) :
    ∀ (l : List BusRec), (∃ b ∈ l, b.id = d.bus_id) →
      (studentApply d l).length = l.length := by
  intro l
  induction l with
  | nil => intro hmem; obtain ⟨b, hb, _⟩ := hmem; exact absurd hb (List.not_mem_nil b)
  | cons a rest ih =>
    intro hmem
    by_cases ha : a.id = d.bus_id
    · simp [studentApply, if_pos ha]
    · have hmem2 : ∃ b ∈ rest, b.id = d.bus_id := by
        obtain ⟨b, hb, hbid⟩ := hmem
        rcases List.mem_cons.mp hb with h | h
        · subst h; exact absurd hbid ha
        · exact ⟨b, h, hbid⟩
      simp [studentApply, if_neg ha, ih hmem2]

/-- With pairwise distinct ids and a matching bus present, the transport
handler leaves exactly one entry with the event id and its last_location is
the new location. -/
theorem transportApply_filter (d : LocationUpdateData) :
    ∀ (prev : List BusRec), (prev.map BusRec.id).Nodup →
      (∃ b ∈ prev, b.id = d.bus_id) →
      ((transportApply d prev).filter (fun b => b.id == d.bus_id)).map
          BusRec.last_location = [some (newLocOf d)] := by
  intro prev
  induction prev with
  | nil => intro _ hmem; obtain ⟨b, hb, _⟩ := hmem; exact absurd hb (List.not_mem_nil b)
  | cons a rest ih =>
    intro hnd hmem
    have hnd1 : a.id ∉ rest.map BusRec.id := (List.nodup_cons.mp (by simpa using hnd)).1
    have hnd2 : (rest.map BusRec.id).Nodup := (List.nodup_cons.mp (by simpa using hnd)).2
    by_cases ha : a.id = d.bus_id
    · have hrest : ∀ x ∈ rest, x.id ≠ d.bus_id := by
        intro x hx hxid
        exact hnd1 (by rw [ha, ← hxid] at hnd1 ⊢; exact List.mem_map_of_mem BusRec.id hx)
      simp only [transportApply, if_pos ha]
      rw [List.filter_cons]
      have hcond : ((⟨a.id, a.bus_number, a.capacity, a.route_name, "active",
          a.driver_id, some (newLocOf d)⟩ : BusRec).id == d.bus_id) = true :=
        beq_iff_eq.mpr ha
      simp only [hcond, if_true, filter_id_nil d rest hrest, List.map_cons,
        List.map_nil]
    · have hmem2 : ∃ b ∈ rest, b.id = d.bus_id := by
        obtain ⟨b, hb, hbid⟩ := hmem
        rcases List.mem_cons.mp hb with h | h
        · subst h; exact absurd hbid ha
        · exact ⟨b, h, hbid⟩
      simp only [transportApply, if_neg ha]
      rw [List.filter_cons]
      have hcond : (a.id == d.bus_id) = false := beq_eq_false_iff_ne.mpr ha
      simp only [hcond, Bool.false_eq_true, if_false]
      exact ih hnd2 hmem2

/-- With pairwise distinct ids and a matching bus present, the student handler
leaves exactly one entry with the event id and its last_location is the new
location. -/
theorem studentApply_filter (d : LocationUpdateData) :
    ∀ (prev : List BusRec), (prev.map BusRec.id).Nodup →
      (∃ b ∈ prev, b.id = d.bus_id) →
      ((studentApply d prev).filter (fun b => b.id == d.bus_id)).map
          BusRec.last_location = [some (newLocOf d)] := by
  intro prev
  induction prev with
  | nil => intro _ hmem; obtain ⟨b, hb, _⟩ := hmem; exact absurd hb (List.not_mem_nil b)
  | cons a rest ih =>
    intro hnd hmem
    have hnd1 : a.id ∉ rest.map BusRec.id := (List.nodup_cons.mp (by simpa using hnd)).1
    have hnd2 : (rest.map BusRec.id).Nodup := (List.nodup_cons.mp (by simpa using hnd)).2
    by_cases ha : a.id = d.bus_id
    · have hrest : ∀ x ∈ rest, x.id ≠ d.bus_id := by
        intro x hx hxid
        exact hnd1 (by rw [ha, ← hxid] at hnd1 ⊢; exact List.mem_map_of_mem BusRec.id hx)
      simp only [studentApply, if_pos ha]
      rw [List.filter_cons]
      have hcond : ((studentNewBus d).id == d.bus_id) = true := beq_iff_eq.mpr rfl
      simp only [hcond, if_true, filter_id_nil d rest hrest, List.map_cons,
        List.map_nil]
      rfl
    · have hmem2 : ∃ b ∈ rest, b.id = d.bus_id := by
        obtain ⟨b, hb, hbid⟩ := hmem
        rcases List.mem_cons.mp hb with h | h
        · subst h; exact absurd hbid ha
        · exact ⟨b, h, hbid⟩
      simp only [studentApply, if_neg ha]
      rw [List.filter_cons]
      have hcond : (a.id == d.bus_id) = false := beq_eq_false_iff_ne.mpr ha
      simp only [hcond, Bool.false_eq_true, if_false]
      exact ih hnd2 hmem2

/-- A bus with a non-matching id keeps its position and all fields under the
transport handler. -/
theorem transportApply_getElem (d : LocationUpdateData) :
    ∀ (l : List BusRec) (i : ℕ) (b : BusRec),
      l[i]? = some b → b.id ≠ d.bus_id →
      (transportApply d l)[i]? = some b := by
  intro l
  induction l with
  | nil => intro i b hb _; simp at hb
  | cons a rest ih =>
    intro i b hb hne
    cases i with
    | zero =>
      rw [List.getElem?_cons_zero] at hb
      obtain rfl : a = b := by injection hb
      simp only [transportApply, if_neg hne]
      exact List.getElem?_cons_zero
    | succ n =>
      rw [List.getElem?_cons_succ] at hb
      by_cases ha : a.id = d.bus_id
      · simp only [transportApply, if_pos ha]
        rw [List.getElem?_cons_succ]
        exact hb
      · simp only [transportApply, if_neg ha]
        rw [List.getElem?_cons_succ]
        exact ih n b hb hne

/-- A bus with a non-matching id keeps its position and all fields under the
student handler. -/
theorem studentApply_getElem (d : LocationUpdateData) :
    ∀ (l : List BusRec) (i : ℕ) (b : BusRec),
      l[i]? = some b → b.id ≠ d.bus_id →
      (studentApply d l)[i]? = some b := by
  intro l
  induction l with
  | nil => intro i b hb _; simp at hb
  | cons a rest ih =>
    intro i b hb hne
    cases i with
    | zero =>
      rw [List.getElem?_cons_zero] at hb
      obtain rfl : a = b := by injection hb
      simp only [studentApply, if_neg hne]
      exact List.getElem?_cons_zero
    | succ n =>
      rw [List.getElem?_cons_succ] at hb
      by_cases ha : a.id = d.bus_id
      · simp only [studentApply, if_pos ha]
        rw [List.getElem?_cons_succ]
        exact hb
      · simp only [studentApply, if_neg ha]
        rw [List.getElem?_cons_succ]
        exact ih n b hb hne

/-- When no bus matches the event id, the transport handler returns the list
unchanged. -/
theorem transportApply_no_match (d : LocationUpdateData) :
    ∀ (l : List BusRec), (∀ b ∈ l, b.id ≠ d.bus_id) → transportApply d l = l := by
  intro l
  induction l with
  | nil => intro _; rfl
  | cons a rest ih =>
    intro h
    have ha : a.id ≠ d.bus_id := h a (List.mem_cons_self a rest)
    simp only [transportApply, if_neg ha]
    rw [ih (fun b hb => h b (List.mem_cons_of_mem a hb))]

/-- When no bus matches the event id, the student handler appends the fresh
bus object at the end. -/
theorem studentApply_no_match (d : LocationUpdateData) :
    ∀ (l : List BusRec), (∀ b ∈ l, b.id ≠ d.bus_id) →
      studentApply d l = l ++ [studentNewBus d] := by
  intro l
  induction l with
  | nil => intro _; rfl
  | cons a rest ih =>
    intro h
    have ha : a.id ≠ d.bus_id := h a (List.mem_cons_self a rest)
    simp only [studentApply, if_neg ha]
    rw [ih (fun b hb => h b (List.mem_cons_of_mem a hb))]
    rfl

/-- Claim C1, counterexample: with latitude 999 (outside [-90, 90]) the
emergency handler does not reject; the request is posted with the
out-of-bounds coordinate, so coordinate bounds are not validated on the
emergency path. -/
theorem emergency_out_of_bounds_still_sent :
    handleEmergency "d1" "B1" (FieldVal.val 999) (FieldVal.val 0) "help" =
      some { bus_id := "B1", driver_id := "d1", latitude := some 999,
             longitude := some 0, description := "help" } := by decide

/-- Claim C1 (amended): emergency reporting performs no coordinate-bounds
validation; whenever a bus is selected and the latitude and longitude fields
are present (non-empty), the emergency request is sent unconditionally,
whatever the coordinate values, and an active alert is created from it. -/
theorem emergency_presence_only_gating (userId bus : String)
    (latField lngField : FieldVal) (desc : String) (hb : bus ≠ "")
    (hlat : latField ≠ FieldVal.empty) (hlng : lngField ≠ FieldVal.empty) :
    handleEmergency userId bus latField lngField desc =
      some { bus_id := bus, driver_id := userId, latitude := latField.parse,
             longitude := lngField.parse,
             description := if desc = "" then defaultEmergencyDesc else desc } ∧
    (alertOf { bus_id := bus, driver_id := userId, latitude := latField.parse,
               longitude := lngField.parse,
               description :=
                 if desc = "" then defaultEmergencyDesc else desc }).status =
      "active" := by
  constructor
  · simp [handleEmergency, hb, hlat, hlng]
  · rfl

/-- Witness for C1: concrete driver, bus, out-of-bounds coordinates. -/
theorem emergency_presence_only_gating_witness :
    handleEmergency "d7" "B9" (FieldVal.val 999) (FieldVal.val (-200)) "fire" =
      some { bus_id := "B9", driver_id := "d7", latitude := some 999,
             longitude := some (-200), description := "fire" } ∧
    (alertOf { bus_id := "B9", driver_id := "d7", latitude := some 999,
               longitude := some (-200), description := "fire" }).status =
      "active" :=
  emergency_presence_only_gating "d7" "B9" (FieldVal.val 999)
    (FieldVal.val (-200)) "fire" (by decide) (by decide) (by decide)

/-- Claim C2: with a bus selected and numeric coordinates, latitude outside
[-90, 90] or longitude outside [-180, 180] makes the location report fail on a
range-error branch, no location request is issued and the stored state is
unchanged; every in-bounds pair is sent as a request with those exact
coordinates. -/
theorem location_bounds_validation (bus : String) (lat lng : ℚ)
    (store : List (String × ℚ × ℚ)) (hb : bus ≠ "") :
    ((lat < -90 ∨ 90 < lat ∨ lng < -180 ∨ 180 < lng) →
      ((handleUpdateLocation bus (FieldVal.val lat) (FieldVal.val lng) =
          LocOutcome.errLatitudeRange ∨
        handleUpdateLocation bus (FieldVal.val lat) (FieldVal.val lng) =
          LocOutcome.errLongitudeRange) ∧
       (∀ r, handleUpdateLocation bus (FieldVal.val lat) (FieldVal.val lng) ≠
          LocOutcome.sent r) ∧
       applyLocOutcome store
           (handleUpdateLocation bus (FieldVal.val lat) (FieldVal.val lng)) =
         store)) ∧
    ((-90 ≤ lat ∧ lat ≤ 90 ∧ -180 ≤ lng ∧ lng ≤ 180) →
      handleUpdateLocation bus (FieldVal.val lat) (FieldVal.val lng) =
        LocOutcome.sent { bus_id := bus, latitude := lat, longitude := lng,
                          speed := 0, heading := 0 }) := by
  have hform : handleUpdateLocation bus (FieldVal.val lat) (FieldVal.val lng) =
      (if lat < -90 ∨ 90 < lat then LocOutcome.errLatitudeRange
       else if lng < -180 ∨ 180 < lng then LocOutcome.errLongitudeRange
       else LocOutcome.sent { bus_id := bus, latitude := lat, longitude := lng,
                              speed := 0, heading := 0 }) := by
    simp [handleUpdateLocation, hb, FieldVal.parse]
  constructor
  · intro hout
    by_cases h1 : lat < -90 ∨ 90 < lat
    · rw [hform, if_pos h1]
      exact ⟨Or.inl rfl, fun r h => LocOutcome.noConfusion h, rfl⟩
    · have h2 : lng < -180 ∨ 180 < lng := by
        rcases hout with h | h | h | h
        · exact absurd (Or.inl h) h1
        · exact absurd (Or.inr h) h1
        · exact Or.inl h
        · exact Or.inr h
      rw [hform, if_neg h1, if_pos h2]
      exact ⟨Or.inr rfl, fun r h => LocOutcome.noConfusion h, rfl⟩
  · rintro ⟨ha1, ha2, ha3, ha4⟩
    have h1 : ¬(lat < -90 ∨ 90 < lat) := by rintro (h | h) <;> linarith
    have h2 : ¬(lng < -180 ∨ 180 < lng) := by rintro (h | h) <;> linarith
    rw [hform, if_neg h1, if_neg h2]

/-- Witness for C2: the spec scenario, latitude 999 rejected with the stored
entry for B1 untouched, and in-bounds 28, 77 sent. -/
theorem location_bounds_validation_witness :
    (handleUpdateLocation "B1" (FieldVal.val 999) (FieldVal.val 0) =
        LocOutcome.errLatitudeRange ∨
      handleUpdateLocation "B1" (FieldVal.val 999) (FieldVal.val 0) =
        LocOutcome.errLongitudeRange) ∧
    applyLocOutcome [("B1", 28, 77)]
        (handleUpdateLocation "B1" (FieldVal.val 999) (FieldVal.val 0)) =
      [("B1", 28, 77)] ∧
    handleUpdateLocation "B1" (FieldVal.val 28) (FieldVal.val 77) =
      LocOutcome.sent { bus_id := "B1", latitude := 28, longitude := 77,
                        speed := 0, heading := 0 } :=
  ⟨((location_bounds_validation "B1" 999 0 [("B1", 28, 77)] (by decide)).1
      (by decide)).1,
   ((location_bounds_validation "B1" 999 0 [("B1", 28, 77)] (by decide)).1
      (by decide)).2.2,
   (location_bounds_validation "B1" 28 77 [] (by decide)).2
     ⟨by decide, by decide, by decide, by decide⟩⟩

/-- Claim C3, counterexample: processing a location_update event for a bus
whose status is inactive changes its status to active on both dashboards, so
a status change is not driver- or operator-initiated only. -/
theorem location_update_changes_status :
    ([({ id := "B1", bus_number := "101", capacity := none, route_name := none,
         status := "inactive", driver_id := none, last_location := none } :
        BusRec)].map BusRec.status = ["inactive"]) ∧
    ((transportApply
        { bus_id := "B1", bus_number := "101", latitude := 1, longitude := 2,
          speed := 0, timestamp := "t1" }
        [{ id := "B1", bus_number := "101", capacity := none,
           route_name := none, status := "inactive", driver_id := none,
           last_location := none }]).map BusRec.status = ["active"]) ∧
    ((studentApply
        { bus_id := "B1", bus_number := "101", latitude := 1, longitude := 2,
          speed := 0, timestamp := "t1" }
        [{ id := "B1", bus_number := "101", capacity := none,
           route_name := none, status := "inactive", driver_id := none,
           last_location := none }]).map BusRec.status = ["active"]) := by
  decide

/-- Claim C3 (amended): besides driver- or operator-initiated status toggles,
processing a location_update event also changes a bus status, and it does so
only for a bus matching the event bus_id and only to active: every bus in the
processed list is either an untouched input bus or has the event id and status
active, on both dashboards. -/
theorem status_changes_only_to_active_on_match (d : LocationUpdateData)
    (prev : List BusRec) :
    (∀ b ∈ transportApply d prev,
      b ∈ prev ∨ (b.id = d.bus_id ∧ b.status = "active")) ∧
    (∀ b ∈ studentApply d prev,
      b ∈ prev ∨ (b.id = d.bus_id ∧ b.status = "active")) :=
  ⟨transportApply_mem d prev, studentApply_mem d prev⟩

/-- Witness for C3: a non-matching bus stays an input-list member. -/
theorem status_changes_only_to_active_on_match_witness :
    ({ id := "B2", bus_number := "202", capacity := none, route_name := none,
       status := "inactive", driver_id := none, last_location := none } :
        BusRec) ∈
      [({ id := "B2", bus_number := "202", capacity := none,
          route_name := none, status := "inactive", driver_id := none,
          last_location := none } : BusRec)] ∨
    (({ id := "B2", bus_number := "202", capacity := none, route_name := none,
        status := "inactive", driver_id := none, last_location := none } :
        BusRec).id = "B1" ∧
     ({ id := "B2", bus_number := "202", capacity := none, route_name := none,
        status := "inactive", driver_id := none, last_location := none } :
        BusRec).status = "active") :=
  (status_changes_only_to_active_on_match
      { bus_id := "B1", bus_number := "101", latitude := 1, longitude := 2,
        speed := 0, timestamp := "t1" }
      [{ id := "B2", bus_number := "202", capacity := none, route_name := none,
         status := "inactive", driver_id := none, last_location := none }]).1
    { id := "B2", bus_number := "202", capacity := none, route_name := none,
      status := "inactive", driver_id := none, last_location := none }
    (by decide)

/-- Claim C4: applying a valid location update for a bus present in a client
list with pairwise distinct ids leaves exactly one entry for that bus, whose
last_location is exactly the new latitude, longitude, speed and timestamp,
and the list length is unchanged, on both dashboards. -/
theorem location_update_overwrites_exactly_once (d : LocationUpdateData)
    (prev : List BusRec) (hnd : (prev.map BusRec.id).Nodup)
    (hmem : ∃ b ∈ prev, b.id = d.bus_id) :
    (((transportApply d prev).filter (fun b => b.id == d.bus_id)).map
        BusRec.last_location = [some (newLocOf d)]) ∧
    ((transportApply d prev).length = prev.length) ∧
    (((studentApply d prev).filter (fun b => b.id == d.bus_id)).map
        BusRec.last_location = [some (newLocOf d)]) ∧
    ((studentApply d prev).length = prev.length) :=
  ⟨transportApply_filter d prev hnd hmem, transportApply_length d prev,
   studentApply_filter d prev hnd hmem, studentApply_length d prev hmem⟩

/-- Witness for C4: a two-bus list with an update for the second bus. -/
theorem location_update_overwrites_exactly_once_witness :
    (((transportApply
        { bus_id := "B2", bus_number := "202", latitude := 3, longitude := 4,
          speed := 5, timestamp := "t2" }
        [{ id := "B1", bus_number := "101", capacity := none,
           route_name := none, status := "active", driver_id := none,
           last_location := none },
         { id := "B2", bus_number := "202", capacity := none,
           route_name := none, status := "inactive", driver_id := none,
           last_location := some { latitude := 9, longitude := 9, speed := 9,
                                   timestamp := "t0" } }]).filter
        (fun b => b.id == "B2")).map BusRec.last_location =
      [some { latitude := 3, longitude := 4, speed := 5,
              timestamp := "t2" }]) ∧
    ((transportApply
        { bus_id := "B2", bus_number := "202", latitude := 3, longitude := 4,
          speed := 5, timestamp := "t2" }
        [{ id := "B1", bus_number := "101", capacity := none,
           route_name := none, status := "active", driver_id := none,
           last_location := none },
         { id := "B2", bus_number := "202", capacity := none,
           route_name := none, status := "inactive", driver_id := none,
           last_location := some { latitude := 9, longitude := 9, speed := 9,
                                   timestamp := "t0" } }]).length = 2) ∧
    (((studentApply
        { bus_id := "B2", bus_number := "202", latitude := 3, longitude := 4,
          speed := 5, timestamp := "t2" }
        [{ id := "B1", bus_number := "101", capacity := none,
           route_name := none, status := "active", driver_id := none,
           last_location := none },
         { id := "B2", bus_number := "202", capacity := none,
           route_name := none, status := "inactive", driver_id := none,
           last_location := some { latitude := 9, longitude := 9, speed := 9,
                                   timestamp := "t0" } }]).filter
        (fun b => b.id == "B2")).map BusRec.last_location =
      [some { latitude := 3, longitude := 4, speed := 5,
              timestamp := "t2" }]) ∧
    ((studentApply
        { bus_id := "B2", bus_number := "202", latitude := 3, longitude := 4,
          speed := 5, timestamp := "t2" }
        [{ id := "B1", bus_number := "101", capacity := none,
           route_name := none, status := "active", driver_id := none,
           last_location := none },
         { id := "B2", bus_number := "202", capacity := none,
           route_name := none, status := "inactive", driver_id := none,
           last_location := some { latitude := 9, longitude := 9, speed := 9,
                                   timestamp := "t0" } }]).length = 2) :=
  location_update_overwrites_exactly_once
    { bus_id := "B2", bus_number := "202", latitude := 3, longitude := 4,
      speed := 5, timestamp := "t2" }
    [{ id := "B1", bus_number := "101", capacity := none, route_name := none,
       status := "active", driver_id := none, last_location := none },
     { id := "B2", bus_number := "202", capacity := none, route_name := none,
       status := "inactive", driver_id := none,
       last_location := some { latitude := 9, longitude := 9, speed := 9,
                               timestamp := "t0" } }]
    (by decide) (by decide)

/-- Claim C5, counterexample: in a trace with a reconnect (mount, open, close,
open) the only snapshot fetches are the ones from the mount; the
connection-open event, which is all a reconnect triggers, emits no fetch on
either dashboard. -/
theorem reconnect_emits_no_snapshot_fetch :
    ((traceActions transportEffects
        [DashEvent.mount, DashEvent.wsOpen, DashEvent.wsClosed,
         DashEvent.wsOpen]).filter isFetch =
      [DashAction.httpGet "/buses", DashAction.httpGet "/emergency"]) ∧
    ((traceActions studentEffects
        [DashEvent.mount, DashEvent.wsOpen, DashEvent.wsClosed,
         DashEvent.wsOpen]).filter isFetch =
      [DashAction.httpGet "/locations/latest"]) ∧
    ((transportEffects DashEvent.wsOpen).filter isFetch = []) ∧
    ((studentEffects DashEvent.wsOpen).filter isFetch = []) := by decide

/-- Claim C5 (amended): the clients fetch the snapshot endpoints on initial
load (mount) only; when the connection becomes open, including after a
reconnect, they re-send their subscribe messages but do not re-fetch any
snapshot endpoint. -/
theorem snapshot_fetch_on_mount_only :
    (transportEffects DashEvent.mount =
      [DashAction.httpGet "/buses", DashAction.httpGet "/emergency"]) ∧
    (studentEffects DashEvent.mount =
      [DashAction.httpGet "/locations/latest"]) ∧
    ((transportEffects DashEvent.wsOpen).filter isFetch = []) ∧
    ((studentEffects DashEvent.wsOpen).filter isFetch = []) ∧
    ((transportEffects DashEvent.wsClosed).filter isFetch = []) ∧
    ((studentEffects DashEvent.wsClosed).filter isFetch = []) ∧
    (sendsOf (transportEffects DashEvent.wsOpen) ≠ []) ∧
    (sendsOf (studentEffects DashEvent.wsOpen) ≠ []) := by decide

/-- Claim C6: every websocket message either dashboard ever sends is a
subscribe message of shape event subscribe with a channel drawn from the fixed
enumeration bus_locations, emergency_alerts, and on each connection-open each
dashboard sends exactly one subscribe message per channel, in that order. -/
theorem subscribe_messages_shape :
    (∀ e : DashEvent,
      ((sendsOf (transportEffects e)).all subscribeShapeOk = true) ∧
      ((sendsOf (studentEffects e)).all subscribeShapeOk = true)) ∧
    (sendsOf (transportEffects DashEvent.wsOpen) =
      [{ event := "subscribe", channel := "bus_locations" },
       { event := "subscribe", channel := "emergency_alerts" }]) ∧
    (sendsOf (studentEffects DashEvent.wsOpen) =
      [{ event := "subscribe", channel := "bus_locations" },
       { event := "subscribe", channel := "emergency_alerts" }]) := by
  refine ⟨fun e => ?_, by decide, by decide⟩
  cases e <;> exact ⟨by decide, by decide⟩

/-- Witness for C6 at the connection-open event. -/
theorem subscribe_messages_shape_witness :
    ((sendsOf (transportEffects DashEvent.wsOpen)).all subscribeShapeOk =
      true) ∧
    ((sendsOf (studentEffects DashEvent.wsOpen)).all subscribeShapeOk =
      true) :=
  subscribe_messages_shape.1 DashEvent.wsOpen

/-- Claim C7: registration offers exactly the roles student, driver and
transport_dept; routing renders a dashboard only when the user role equals one
of these three (the one of the path), and a user with any other role is
redirected to the landing path from every dashboard path. -/
theorem roles_and_routing :
    registrationRoleOptions = ["student", "driver", "transport_dept"] ∧
    (∀ (u : UserRec) (p r : String),
      route (some u) p = RouteResult.dashboard r →
        u.role = r ∧ r ∈ registrationRoleOptions) ∧
    (∀ u : UserRec, u.role ∉ registrationRoleOptions →
      route (some u) "/student" = RouteResult.redirect "/" ∧
      route (some u) "/driver" = RouteResult.redirect "/" ∧
      route (some u) "/transport_dept" = RouteResult.redirect "/") := by
  refine ⟨rfl, ?_, ?_⟩
  · intro u p r h
    simp only [route] at h
    split_ifs at h
    all_goals
      rw [RouteResult.dashboard.injEq] at h
      subst h
      exact ⟨by assumption, by decide⟩
  · intro u hu
    simp only [registrationRoleOptions, List.mem_cons, List.not_mem_nil,
      or_false] at hu
    push_neg at hu
    obtain ⟨h1, h2, h3⟩ := hu
    refine ⟨?_, ?_, ?_⟩ <;> simp [route, h1, h2, h3]

/-- Witness for C7: a user with role admin is redirected from every dashboard
path. -/
theorem roles_and_routing_witness :
    route (some { role := "admin" }) "/student" = RouteResult.redirect "/" ∧
    route (some { role := "admin" }) "/driver" = RouteResult.redirect "/" ∧
    route (some { role := "admin" }) "/transport_dept" =
      RouteResult.redirect "/" :=
  roles_and_routing.2.2 { role := "admin" } (by decide)

/-- Claim C8: broadcast delivery is isolated per connection: a connection
receives the event exactly when it is subscribed and its own send does not
fail, independently of every other connection; a failing subscribed
connection is dropped from the registry; and the broadcast is a total
function, raising no error. Modelled from the spec, the broadcaster being
server code absent from src. -/
theorem broadcast_isolation (r : Registry) (ch : String) (failing : ℕ → Bool)
    (c : ℕ) :
    (c ∈ (broadcast r ch failing).1 ↔
      (c ∈ subscribersOf r ch ∧ failing c = false)) ∧
    (failing c = true → c ∈ subscribersOf r ch →
      ∀ s ∈ (broadcast r ch failing).2.subs, s.1 ≠ c) ∧
    (∀ g : ℕ → Bool, g c = failing c →
      (c ∈ (broadcast r ch g).1 ↔ c ∈ (broadcast r ch failing).1)) := by
  refine ⟨?_, ?_, ?_⟩
  · simp [broadcast, List.mem_filter, Bool.not_eq_true']
  · intro hf hc s hs hsc
    simp only [broadcast, List.mem_filter] at hs
    obtain ⟨-, hcond⟩ := hs
    rw [hsc, hf] at hcond
    simp [hc] at hcond
  · intro g hg
    simp [broadcast, List.mem_filter, hg]

/-- Witness for C8: connection 1 is delivered to although connection 2 fails
mid-broadcast. -/
theorem broadcast_isolation_witness :
    1 ∈ (broadcast { subs := [(1, "bus_locations"), (2, "bus_locations")] }
          "bus_locations" (fun n => n == 2)).1 :=
  ((broadcast_isolation
      { subs := [(1, "bus_locations"), (2, "bus_locations")] } "bus_locations"
      (fun n => n == 2) 1).1).mpr ⟨by decide, by decide⟩

/-- Claim C9: processing a location_update changes at most the bus whose id
equals the event bus_id: every bus with a different id keeps its position and
all of its fields on both dashboards; when no bus matches, the transport list
is returned unchanged while the student list gains the fresh bus object at the
end. -/
theorem location_update_frame (d : LocationUpdateData) (prev : List BusRec) :
    (∀ (i : ℕ) (b : BusRec), prev[i]? = some b → b.id ≠ d.bus_id →
      ((transportApply d prev)[i]? = some b ∧
       (studentApply d prev)[i]? = some b)) ∧
    ((∀ b ∈ prev, b.id ≠ d.bus_id) →
      (transportApply d prev = prev ∧
       studentApply d prev = prev ++ [studentNewBus d])) :=
  ⟨fun i b hb hne => ⟨transportApply_getElem d prev i b hb hne,
      studentApply_getElem d prev i b hb hne⟩,
   fun h => ⟨transportApply_no_match d prev h,
      studentApply_no_match d prev h⟩⟩

/-- Witness for C9: an event for an unknown bus id leaves the transport list
unchanged and appends on the student list. -/
theorem location_update_frame_witness :
    (transportApply
        { bus_id := "B9", bus_number := "909", latitude := 7, longitude := 8,
          speed := 0, timestamp := "t3" }
        [{ id := "B1", bus_number := "101", capacity := none,
           route_name := none, status := "active", driver_id := none,
           last_location := none }] =
      [{ id := "B1", bus_number := "101", capacity := none,
         route_name := none, status := "active", driver_id := none,
         last_location := none }]) ∧
    (studentApply
        { bus_id := "B9", bus_number := "909", latitude := 7, longitude := 8,
          speed := 0, timestamp := "t3" }
        [{ id := "B1", bus_number := "101", capacity := none,
           route_name := none, status := "active", driver_id := none,
           last_location := none }] =
      [{ id := "B1", bus_number := "101", capacity := none,
         route_name := none, status := "active", driver_id := none,
         last_location := none }] ++
        [studentNewBus
          { bus_id := "B9", bus_number := "909", latitude := 7, longitude := 8,
            speed := 0, timestamp := "t3" }]) :=
  (location_update_frame
      { bus_id := "B9", bus_number := "909", latitude := 7, longitude := 8,
        speed := 0, timestamp := "t3" }
      [{ id := "B1", bus_number := "101", capacity := none, route_name := none,
         status := "active", driver_id := none,
         last_location := none }]).2 (by decide)

/-- Claim C10: every emergency report the driver dashboard posts carries a
non-empty description, the entered text when non-empty and the default string
otherwise, and after a successful post the description input is reset to the
empty string. -/
theorem emergency_description_nonempty_and_reset (userId bus : String)
    (latField lngField : FieldVal) (desc : String) (sendOk : Bool)
    (hb : bus ≠ "") (hlat : latField ≠ FieldVal.empty)
    (hlng : lngField ≠ FieldVal.empty) :
    handleEmergencyStep userId bus latField lngField desc sendOk =
      (some { bus_id := bus, driver_id := userId, latitude := latField.parse,
              longitude := lngField.parse,
              description :=
                if desc = "" then defaultEmergencyDesc else desc },
       if sendOk then "" else desc) ∧
    (if desc = "" then defaultEmergencyDesc else desc) ≠ "" := by
  constructor
  · simp [handleEmergencyStep, handleEmergency, hb, hlat, hlng]
  · by_cases hd : desc = ""
    · rw [if_pos hd]; decide
    · rw [if_neg hd]; exact hd

/-- Witness for C10: an empty description is replaced by the default and the
input is reset after the successful post. -/
theorem emergency_description_nonempty_and_reset_witness :
    handleEmergencyStep "d2" "B5" (FieldVal.val 10) (FieldVal.val 20) ""
        true =
      (some { bus_id := "B5", driver_id := "d2", latitude := some 10,
              longitude := some 20, description := defaultEmergencyDesc },
       "") ∧
    defaultEmergencyDesc ≠ "" :=
  emergency_description_nonempty_and_reset "d2" "B5" (FieldVal.val 10)
    (FieldVal.val 20) "" true (by decide) (by decide) (by decide)
